import Mathlib

/-! Shallow embedding of the peer negotiation core of `src/components/Room.tsx`:
the signal handler, initiator election, glare resolution, ICE candidate
queueing, negotiation timeout and restart logic.  The React refs and state the
handlers mutate are fields of `Session`; calls into the external connection
engine (a standard peer-connection primitive) and sends on the signaling
channel are recorded as an `Act` trace; the engine fields the code reads
(`connectionState`, `signalingState`, `remoteDescription`) are an `EngineObs`
input; exceptions thrown by engine operations are driven by a `Faults` oracle,
mirroring the try/catch structure of the source.  ICE candidates are opaque
and represented by `Nat` identifiers. -/

/-- The engine's `connectionState` values. -/
inductive ConnState
  | new | connecting | connected | disconnected | failed | closed
  deriving DecidableEq

/-- The engine's `iceConnectionState` values. -/
inductive IceState
  | new | checking | connected | completed | failed | disconnected | closed
  deriving DecidableEq

/-- The engine's `signalingState` values. -/
inductive SigState
  | stable | haveLocalOffer | haveRemoteOffer | haveLocalPranswer | haveRemotePranswer | closed
  deriving DecidableEq

/-- The observable `ConnectionStatus` (`initial` embeds the source's starting
status value). -/
inductive ConnectionStatus
  | initial | waitingForPeer | negotiating | connected | reconnecting | disconnected | failed
  deriving DecidableEq

/-- Chat message record, from `src/types.ts`. -/
structure ChatMessage where
  id : String
  text : String
  senderId : String
  timestamp : Nat
  deriving DecidableEq

/-- The mutable session state held in React refs and state hooks by `Room`:
`myId`, `isInitiator`, `announceInterval` (as the Boolean `announceOn`),
`negotiationTimeout` (as the Boolean `negotiationTimer`),
`iceCandidatesQueue`, `status`, `statusMessage`, `messages`, `unreadCount`,
`showChat`, `peerConnected`, and whether `peerConnection.current` is non-null
(`hasPC`). -/
structure Session where
  myId : String
  isInitiator : Bool
  announceOn : Bool
  negotiationTimer : Bool
  iceCandidatesQueue : List Nat
  status : ConnectionStatus
  statusMessage : String
  messages : List ChatMessage
  unreadCount : Nat
  showChat : Bool
  peerConnected : Bool
  hasPC : Bool
  deriving DecidableEq

/-- The engine fields read by the signal handler: `connectionState`,
`signalingState`, and whether `remoteDescription` with a type is set. -/
structure EngineObs where
  connectionState : ConnState
  signalingState : SigState
  remoteDescSet : Bool
  deriving DecidableEq

/-- One engine call or channel send performed by a handler.  `addCandidate c ok`
records one `addIceCandidate` attempt for candidate `c`; `ok` is false when the
engine threw (the source catches and logs these individually).
`scheduleRestart ms` records `setTimeout(restartConnection, ms)`. -/
inductive Act
  | createDataChannel
  | createOffer
  | setLocalOffer
  | sendOffer
  | cancelTimer
  | armTimer (ms : Nat)
  | rollback
  | setRemoteOffer
  | addCandidate (c : Nat) (ok : Bool)
  | createAnswer
  | setLocalAnswer
  | sendAnswer
  | setRemoteAnswer
  | closeEngine
  | newEngine
  | addTracks
  | clearRemoteVideo
  | scheduleRestart (ms : Nat)
  deriving DecidableEq

/-- Oracle saying which engine operations throw when invoked. -/
structure Faults where
  createOfferFails : Bool
  setLocalOfferFails : Bool
  rollbackFails : Bool
  setRemoteOfferFails : Bool
  createAnswerFails : Bool
  setLocalAnswerFails : Bool
  setRemoteAnswerFails : Bool
  addCandidateFails : Nat → Bool

/-- The all-succeeding fault oracle. -/
def noFaults : Faults :=
  ⟨false, false, false, false, false, false, false, fun _ => false⟩

/-- Inbound signal envelope (the `payload` of a broadcast `signal` event). -/
inductive Envelope
  | announce (senderId : String)
  | offer (senderId : String)
  | answer (senderId : String)
  | iceCandidate (senderId : String) (candidate : Option Nat)
  | leave (senderId : String)
  | chat (senderId : String) (msg : Option ChatMessage)
  deriving DecidableEq

/-- The `senderId` field of an envelope. -/
def Envelope.senderId : Envelope → String
  | .announce s => s
  | .offer s => s
  | .answer s => s
  | .iceCandidate s _ => s
  | .leave s => s
  | .chat s _ => s

/-- `startAnnouncementLoop`: clears any prior ticker and starts announcing
(modelled as the single Boolean `announceOn`). -/
def startAnnouncementLoop (s : Session) : Session :=
  { s with announceOn := true }

/-- `createPeerConnection`: constructs a fresh engine instance unless one
already exists. -/
def createPeerConnection (s : Session) : Session × List Act :=
  if s.hasPC then (s, []) else ({ s with hasPC := true }, [Act.newEngine])

/-- `restartConnection`: closes the current engine instance, builds a fresh
one, re-attaches local tracks, sets status to `Waiting for Peer` and restarts
the announcement loop.  Note: the source does not touch
`iceCandidatesQueue` here. -/
def restartConnection (s : Session) : Session × List Act :=
  let firstStep :=
    if s.hasPC then ({ s with hasPC := false }, [Act.closeEngine])
    else (s, ([] : List Act))
  let secondStep := createPeerConnection firstStep.1
  let s3 := { secondStep.1 with
                status := ConnectionStatus.waitingForPeer,
                statusMessage := "Retrying connection..." }
  (startAnnouncementLoop s3, firstStep.2 ++ secondStep.2 ++ [Act.addTracks])

/-- `initiateConnection`: stop announcing, mark initiator, create a data
channel and an offer, set it locally, send it, then clear any prior
negotiation timer and arm a fresh 10s one.  Engine faults are caught inside
this function (logged only), so a fault leaves the earlier mutations in
place and arms no timer. -/
def initiateConnection (s : Session) (f : Faults) : Session × List Act :=
  if !s.hasPC then (s, [])
  else
    let s1 := { s with announceOn := false,
                       status := ConnectionStatus.negotiating,
                       statusMessage := "Calling peer...",
                       isInitiator := true }
    if f.createOfferFails then (s1, [Act.createDataChannel, Act.createOffer])
    else if f.setLocalOfferFails then
      (s1, [Act.createDataChannel, Act.createOffer, Act.setLocalOffer])
    else
      ({ s1 with negotiationTimer := true },
       [Act.createDataChannel, Act.createOffer, Act.setLocalOffer,
        Act.sendOffer]
         ++ (if s.negotiationTimer then [Act.cancelTimer] else [])
         ++ [Act.armTimer 10000])

/-- Firing of the single-shot negotiation timer: restart unless either the
connection state or the ICE connection state is `connected`. -/
def negotiationTimerFire (s : Session) (pcState : ConnState) (iceState : IceState) :
    Session × List Act :=
  let s0 := { s with negotiationTimer := false }
  if pcState ≠ ConnState.connected ∧ iceState ≠ IceState.connected then
    restartConnection s0
  else (s0, [])

/-- The engine's `onconnectionstatechange` callback body. -/
def onConnectionStateChange (s : Session) (st : ConnState) : Session × List Act :=
  match st with
  | ConnState.connected =>
      ({ s with status := ConnectionStatus.connected,
                statusMessage := "Securely connected",
                peerConnected := true,
                announceOn := false,
                negotiationTimer := false }, [])
  | ConnState.disconnected =>
      ({ s with status := ConnectionStatus.disconnected,
                statusMessage := "Peer disconnected",
                peerConnected := false }, [])
  | ConnState.failed =>
      ({ s with status := ConnectionStatus.failed,
                statusMessage := "Connection failed. Retrying..." },
       [Act.scheduleRestart 2000])
  | _ => (s, [])

/-- `handleRemoteDisconnect`: shown status reset, remote video cleared, then a
full restart. -/
def handleRemoteDisconnect (s : Session) : Session × List Act :=
  let s1 := { s with status := ConnectionStatus.waitingForPeer,
                     statusMessage := "Peer left. Waiting...",
                     peerConnected := false }
  let r := restartConnection s1
  (r.1, Act.clearRemoteVideo :: r.2)

/-- Draining the ICE queue: one `addIceCandidate` attempt per queued
candidate, in queue order, each in its own try/catch. -/
def drainQueue (f : Faults) (q : List Nat) : List Act :=
  q.map (fun c => Act.addCandidate c (!(f.addCandidateFails c)))

/-- The body of the try block of `handleSignalMessage`.  An `Except.error`
carries the session state and action trace accumulated up to the throw
point. -/
def tryBody (s : Session) (obs : EngineObs) (f : Faults) (p : Envelope) :
    Except (Session × List Act) (Session × List Act) :=
  match p with
  | Envelope.announce sender =>
      if obs.connectionState = ConnState.connected then Except.ok (s, [])
      else if s.myId > sender then
        if obs.signalingState ≠ SigState.stable ∧
           obs.connectionState ≠ ConnState.failed ∧
           obs.connectionState ≠ ConnState.disconnected then
          Except.ok (s, [])
        else Except.ok (initiateConnection s f)
      else Except.ok (s, [])
  | Envelope.offer _ =>
      let s1 := { s with status := ConnectionStatus.negotiating,
                         statusMessage := "Accepting connection...",
                         announceOn := false }
      let preActs :=
        if obs.signalingState ≠ SigState.stable then
          [Act.rollback, Act.setRemoteOffer]
        else [Act.setRemoteOffer]
      let preFail :=
        if obs.signalingState ≠ SigState.stable then
          f.rollbackFails || f.setRemoteOfferFails
        else f.setRemoteOfferFails
      if preFail then Except.error (s1, preActs)
      else
        let dActs := drainQueue f s1.iceCandidatesQueue
        let s2 := { s1 with iceCandidatesQueue := [] }
        if f.createAnswerFails then
          Except.error (s2, preActs ++ dActs ++ [Act.createAnswer])
        else if f.setLocalAnswerFails then
          Except.error (s2, preActs ++ dActs ++ [Act.createAnswer, Act.setLocalAnswer])
        else
          Except.ok (s2, preActs ++ dActs ++
            [Act.createAnswer, Act.setLocalAnswer, Act.sendAnswer])
  | Envelope.answer _ =>
      let s1 := { s with status := ConnectionStatus.negotiating,
                         statusMessage := "Finalizing connection..." }
      if obs.signalingState = SigState.haveLocalOffer then
        if f.setRemoteAnswerFails then Except.error (s1, [Act.setRemoteAnswer])
        else Except.ok (s1, [Act.setRemoteAnswer])
      else Except.ok (s1, [])
  | Envelope.iceCandidate _ (some c) =>
      if obs.remoteDescSet then
        Except.ok (s, [Act.addCandidate c (!(f.addCandidateFails c))])
      else Except.ok ({ s with iceCandidatesQueue := s.iceCandidatesQueue ++ [c] }, [])
  | Envelope.iceCandidate _ none => Except.ok (s, [])
  | Envelope.leave _ => Except.ok (handleRemoteDisconnect s)
  | Envelope.chat _ _ => Except.ok (s, [])

/-- Whether the catch clause escalates a throw from this envelope type to a
full restart. -/
def isOfferOrAnswer : Envelope → Bool
  | Envelope.offer _ => true
  | Envelope.answer _ => true
  | _ => false

/-- `handleSignalMessage`: drop self-echoes; handle chat independently of the
engine; otherwise, if an engine exists, run the try block, and on a throw
restart when the envelope was an `offer` or `answer`. -/
def handleSignalMessage (s : Session) (obs : EngineObs) (f : Faults) (p : Envelope) :
    Session × List Act :=
  if p.senderId = s.myId then (s, [])
  else
    match p with
    | Envelope.chat _ (some m) =>
        let msgs :=
          if s.messages.any (fun x => x.id = m.id) then s.messages
          else s.messages ++ [m]
        let unread := if !s.showChat then s.unreadCount + 1 else s.unreadCount
        ({ s with messages := msgs, unreadCount := unread }, [])
    | _ =>
        if !s.hasPC then (s, [])
        else
          match tryBody s obs f p with
          | Except.ok r => r
          | Except.error e =>
              if isOfferOrAnswer p then
                let r2 := restartConnection e.1
                (r2.1, e.2 ++ r2.2)
              else e

/-- A freshly initialised session searching for a peer. -/
def mkSession (myId : String) : Session :=
  { myId := myId, isInitiator := false, announceOn := true,
    negotiationTimer := false, iceCandidatesQueue := [],
    status := ConnectionStatus.waitingForPeer,
    statusMessage := "Searching for peer...",
    messages := [], unreadCount := 0, showChat := false,
    peerConnected := false, hasPC := true }

/-- A session with one stale queued ICE candidate, as left by a candidate that
arrived before any remote description. -/
def staleQueueSession : Session :=
  { mkSession "b1" with iceCandidatesQueue := [7] }

/-- C9: an inbound envelope whose `senderId` equals the local identity is a
complete no-op: the session state is unchanged and no signaling, queue, timer
or message operation is performed. -/
theorem self_echo_noop (s : Session) (obs : EngineObs) (f : Faults) (p : Envelope)
    (h : p.senderId = s.myId) :
    handleSignalMessage s obs f p = (s, []) := by
  simp [handleSignalMessage, h]

/-- Witness for `self_echo_noop` at a concrete self-echoed announce. -/
theorem self_echo_noop_w :
    (Envelope.announce "b1").senderId = (mkSession "b1").myId ∧
    handleSignalMessage (mkSession "b1")
      ⟨ConnState.new, SigState.stable, false⟩ noFaults
      (Envelope.announce "b1") = (mkSession "b1", []) :=
  ⟨rfl, self_echo_noop _ _ _ _ rfl⟩

/-- C10: chat handling is idempotent in the message id: a chat envelope whose
message id already occurs in the list leaves the list unchanged, and
delivering the same chat envelope twice yields the same message list as
delivering it once. -/
theorem chat_dedup_idempotent (s : Session) (obs : EngineObs) (f : Faults)
    (sender : String) (m : ChatMessage) (hne : sender ≠ s.myId) :
    (s.messages.any (fun x => x.id = m.id) = true →
      (handleSignalMessage s obs f (Envelope.chat sender (some m))).1.messages
        = s.messages) ∧
    (handleSignalMessage
        (handleSignalMessage s obs f (Envelope.chat sender (some m))).1 obs f
        (Envelope.chat sender (some m))).1.messages
      = (handleSignalMessage s obs f (Envelope.chat sender (some m))).1.messages := by
  constructor
  · intro h
    simp [handleSignalMessage, Envelope.senderId, hne, h]
  · by_cases h : s.messages.any (fun x => x.id = m.id)
    · simp [handleSignalMessage, Envelope.senderId, hne, h]
    · simp [handleSignalMessage, Envelope.senderId, hne, h]

/-- Witness for `chat_dedup_idempotent` at a concrete duplicated chat. -/
theorem chat_dedup_idempotent_w :
    ("a9" : String) ≠ (mkSession "b1").myId ∧
    ((handleSignalMessage
        (handleSignalMessage (mkSession "b1")
          ⟨ConnState.new, SigState.stable, false⟩ noFaults
          (Envelope.chat "a9" (some ⟨"m1", "hi", "a9", 5⟩))).1
        ⟨ConnState.new, SigState.stable, false⟩ noFaults
        (Envelope.chat "a9" (some ⟨"m1", "hi", "a9", 5⟩))).1.messages
      = (handleSignalMessage (mkSession "b1")
          ⟨ConnState.new, SigState.stable, false⟩ noFaults
          (Envelope.chat "a9" (some ⟨"m1", "hi", "a9", 5⟩))).1.messages) :=
  ⟨by decide,
   (chat_dedup_idempotent (mkSession "b1") ⟨ConnState.new, SigState.stable, false⟩
      noFaults "a9" ⟨"m1", "hi", "a9", 5⟩ (by decide)).2⟩

/-- C8: a `disconnected` engine state only updates the observable status
fields (no restart is scheduled and no other state is touched); a `failed`
state schedules a restart after a 2000ms delay; a `connected` state cancels
both the negotiation timer and the announcement loop. -/
theorem conn_state_change_policy (s : Session) :
    (onConnectionStateChange s ConnState.disconnected =
      ({ s with status := ConnectionStatus.disconnected,
                statusMessage := "Peer disconnected",
                peerConnected := false }, [])) ∧
    (onConnectionStateChange s ConnState.failed =
      ({ s with status := ConnectionStatus.failed,
                statusMessage := "Connection failed. Retrying..." },
       [Act.scheduleRestart 2000])) ∧
    ((onConnectionStateChange s ConnState.connected).1.negotiationTimer = false ∧
     (onConnectionStateChange s ConnState.connected).1.announceOn = false) := by
  refine ⟨rfl, rfl, ?_, ?_⟩ <;> simp [onConnectionStateChange]

/-- C4 counterexample: rebuilding the engine via `restartConnection` does not
empty the ICE candidate queue — a session holding a stale queued candidate
still holds it after the restart. -/
theorem restart_keeps_stale_candidate :
    (restartConnection staleQueueSession).1.iceCandidatesQueue ≠ [] := by
  decide

/-- C4 amended: whenever the connection-engine instance is rebuilt by
`restartConnection`, the ICE candidate queue is left exactly as it was, so a
candidate enqueued before the restart remains queued and will be drained into
the new engine instance at the next offer. -/
theorem restart_preserves_queue (s : Session) :
    (restartConnection s).1.iceCandidatesQueue = s.iceCandidatesQueue ∧
    (restartConnection s).1.hasPC = true ∧
    Act.newEngine ∈ (restartConnection s).2 := by
  unfold restartConnection createPeerConnection startAnnouncementLoop
  by_cases h : s.hasPC <;> simp [h]

/-- When an engine exists, a restart closes it, builds a fresh one and
re-attaches tracks, resuming announcements. -/
theorem restartConnection_of_hasPC (s : Session) (h : s.hasPC = true) :
    restartConnection s =
      ({ s with status := ConnectionStatus.waitingForPeer,
                statusMessage := "Retrying connection...",
                announceOn := true, hasPC := true },
       [Act.closeEngine, Act.newEngine, Act.addTracks]) := by
  simp [restartConnection, createPeerConnection, startAnnouncementLoop, h]

/-- C1: while the engine is not connected, an announce from a
lexicographically smaller peer makes this side initiator and send an offer,
unless it is mid-negotiation (signaling state not stable and connection state
neither failed nor disconnected), in which case the announce is ignored; an
announce from a lexicographically greater peer leaves this side a follower
that performs nothing and in particular never sends an offer. -/
theorem announce_initiator_election (s : Session) (obs : EngineObs) (f : Faults)
    (peer : String) (hpc : s.hasPC = true) (hne : peer ≠ s.myId)
    (hnc : obs.connectionState ≠ ConnState.connected) :
    (s.myId > peer → obs.signalingState ≠ SigState.stable →
      obs.connectionState ≠ ConnState.failed →
      obs.connectionState ≠ ConnState.disconnected →
      handleSignalMessage s obs f (Envelope.announce peer) = (s, [])) ∧
    (s.myId > peer →
      (obs.signalingState = SigState.stable ∨ obs.connectionState = ConnState.failed ∨
        obs.connectionState = ConnState.disconnected) →
      f.createOfferFails = false → f.setLocalOfferFails = false →
      (handleSignalMessage s obs f (Envelope.announce peer)).1.isInitiator = true ∧
      Act.sendOffer ∈ (handleSignalMessage s obs f (Envelope.announce peer)).2) ∧
    (s.myId < peer →
      handleSignalMessage s obs f (Envelope.announce peer) = (s, []) ∧
      Act.sendOffer ∉ (handleSignalMessage s obs f (Envelope.announce peer)).2) := by
  refine ⟨?_, ?_, ?_⟩
  · intro hgt h1 h2 h3
    simp [handleSignalMessage, tryBody, Envelope.senderId, hne, hpc, hnc, hgt, h1, h2, h3]
  · intro hgt hor hf1 hf2
    have hbusy : ¬ (obs.signalingState ≠ SigState.stable ∧
        obs.connectionState ≠ ConnState.failed ∧
        obs.connectionState ≠ ConnState.disconnected) := by
      rcases hor with h | h | h <;> simp [h]
    constructor <;>
      simp [handleSignalMessage, tryBody, Envelope.senderId, hne, hpc, hnc, hgt, hbusy,
            initiateConnection, hf1, hf2]
  · intro hlt
    have hngt : ¬ s.myId > peer := asymm hlt
    constructor <;>
      simp [handleSignalMessage, tryBody, Envelope.senderId, hne, hpc, hnc, hngt]

/-- Witness for `announce_initiator_election`: identity b1 against peer a9 in
a fresh stable session becomes initiator and sends an offer. -/
theorem announce_initiator_election_w :
    (mkSession "b1").hasPC = true ∧ ("a9" : String) ≠ (mkSession "b1").myId ∧
    (⟨ConnState.new, SigState.stable, false⟩ : EngineObs).connectionState ≠
      ConnState.connected ∧
    (handleSignalMessage (mkSession "b1") ⟨ConnState.new, SigState.stable, false⟩
        noFaults (Envelope.announce "a9")).1.isInitiator = true ∧
    Act.sendOffer ∈ (handleSignalMessage (mkSession "b1")
        ⟨ConnState.new, SigState.stable, false⟩ noFaults
        (Envelope.announce "a9")).2 :=
  ⟨rfl, by decide, by decide,
   (announce_initiator_election (mkSession "b1") ⟨ConnState.new, SigState.stable, false⟩
      noFaults "a9" rfl (by decide) (by decide)).2.1
     (by simp [mkSession, GT.gt, String.lt_iff_toList_lt]; decide)
     (Or.inl rfl) rfl rfl⟩

/-- C2: on receiving an offer while the local signaling state is not stable
(glare), the handler rolls the local description back and then applies the
remote offer, in that order; while stable, the remote offer is applied first
and no rollback ever occurs in the processing. -/
theorem offer_glare_rollback (s : Session) (obs : EngineObs) (f : Faults)
    (sender : String) (hpc : s.hasPC = true) (hne : sender ≠ s.myId) :
    (obs.signalingState ≠ SigState.stable →
      (handleSignalMessage s obs f (Envelope.offer sender)).2.take 2
        = [Act.rollback, Act.setRemoteOffer]) ∧
    (obs.signalingState = SigState.stable →
      (handleSignalMessage s obs f (Envelope.offer sender)).2.head?
          = some Act.setRemoteOffer ∧
      Act.rollback ∉ (handleSignalMessage s obs f (Envelope.offer sender)).2) := by
  constructor
  · intro hsig
    by_cases h1 : f.rollbackFails <;> by_cases h2 : f.setRemoteOfferFails <;>
      by_cases h3 : f.createAnswerFails <;> by_cases h4 : f.setLocalAnswerFails <;>
      simp [handleSignalMessage, tryBody, isOfferOrAnswer, Envelope.senderId, hne, hpc,
            hsig, h1, h2, h3, h4, restartConnection_of_hasPC]
  · intro hsig
    by_cases h2 : f.setRemoteOfferFails <;>
      by_cases h3 : f.createAnswerFails <;> by_cases h4 : f.setLocalAnswerFails <;>
      constructor <;>
      simp [handleSignalMessage, tryBody, isOfferOrAnswer, Envelope.senderId, hne, hpc,
            hsig, h2, h3, h4, restartConnection_of_hasPC, drainQueue]

/-- Witness for `offer_glare_rollback`: a mid-offer session receiving a
foreign offer rolls back first. -/
theorem offer_glare_rollback_w :
    (mkSession "a9").hasPC = true ∧ ("b1" : String) ≠ (mkSession "a9").myId ∧
    (handleSignalMessage (mkSession "a9")
        ⟨ConnState.connecting, SigState.haveLocalOffer, false⟩ noFaults
        (Envelope.offer "b1")).2.take 2 = [Act.rollback, Act.setRemoteOffer] :=
  ⟨rfl, by decide,
   (offer_glare_rollback (mkSession "a9")
      ⟨ConnState.connecting, SigState.haveLocalOffer, false⟩ noFaults "b1" rfl
      (by decide)).1 (by decide)⟩

/-- A follower session with three ICE candidates buffered before any remote
description. -/
def queuedSession : Session :=
  { mkSession "a9" with iceCandidatesQueue := [1, 2, 3] }

/-- C3: an ICE candidate is applied immediately when a remote description is
set and buffered otherwise; offer processing drains the buffered candidates
into the engine in exactly enqueue order (individual apply failures changing
nothing but the attempt's outcome) and leaves the queue empty. -/
theorem ice_queue_correct (s : Session) (obs : EngineObs) (f : Faults)
    (sender : String) (c : Nat) (hpc : s.hasPC = true) (hne : sender ≠ s.myId)
    (hf1 : f.rollbackFails = false) (hf2 : f.setRemoteOfferFails = false)
    (hf3 : f.createAnswerFails = false) (hf4 : f.setLocalAnswerFails = false) :
    (obs.remoteDescSet = true →
      handleSignalMessage s obs f (Envelope.iceCandidate sender (some c))
        = (s, [Act.addCandidate c (!(f.addCandidateFails c))])) ∧
    (obs.remoteDescSet = false →
      handleSignalMessage s obs f (Envelope.iceCandidate sender (some c))
        = ({ s with iceCandidatesQueue := s.iceCandidatesQueue ++ [c] }, [])) ∧
    (handleSignalMessage s obs f (Envelope.offer sender)
      = ({ s with status := ConnectionStatus.negotiating,
                  statusMessage := "Accepting connection...",
                  announceOn := false, iceCandidatesQueue := [] },
         (if obs.signalingState ≠ SigState.stable then
            [Act.rollback, Act.setRemoteOffer]
          else [Act.setRemoteOffer]) ++
           s.iceCandidatesQueue.map
             (fun a => Act.addCandidate a (!(f.addCandidateFails a))) ++
           [Act.createAnswer, Act.setLocalAnswer, Act.sendAnswer])) := by
  refine ⟨?_, ?_, ?_⟩
  · intro h
    simp [handleSignalMessage, tryBody, Envelope.senderId, hne, hpc, h]
  · intro h
    simp [handleSignalMessage, tryBody, Envelope.senderId, hne, hpc, h]
  · by_cases hsig : obs.signalingState = SigState.stable <;>
      simp [handleSignalMessage, tryBody, isOfferOrAnswer, Envelope.senderId, hne, hpc,
            hsig, hf1, hf2, hf3, hf4, drainQueue]

/-- Witness for `ice_queue_correct`: three buffered candidates are drained in
order 1, 2, 3 and the queue is empty afterwards. -/
theorem ice_queue_correct_w :
    queuedSession.hasPC = true ∧ ("b1" : String) ≠ queuedSession.myId ∧
    handleSignalMessage queuedSession ⟨ConnState.new, SigState.stable, false⟩
        noFaults (Envelope.offer "b1")
      = ({ queuedSession with status := ConnectionStatus.negotiating,
                              statusMessage := "Accepting connection...",
                              announceOn := false, iceCandidatesQueue := [] },
         [Act.setRemoteOffer, Act.addCandidate 1 true, Act.addCandidate 2 true,
          Act.addCandidate 3 true, Act.createAnswer, Act.setLocalAnswer,
          Act.sendAnswer]) :=
  ⟨rfl, by decide,
   by
     have h := (ice_queue_correct queuedSession ⟨ConnState.new, SigState.stable, false⟩
        noFaults "b1" 0 rfl (by decide) rfl rfl rfl rfl).2.2
     simpa [queuedSession, mkSession, noFaults] using h⟩

/-- C5: an answer's remote description is applied iff the local signaling
state is exactly have-local-offer; in any other state the handler performs no
engine operation at all and only refreshes the shown status. -/
theorem answer_applied_iff (s : Session) (obs : EngineObs) (f : Faults)
    (sender : String) (hpc : s.hasPC = true) (hne : sender ≠ s.myId) :
    (Act.setRemoteAnswer ∈ (handleSignalMessage s obs f (Envelope.answer sender)).2 ↔
      obs.signalingState = SigState.haveLocalOffer) ∧
    (obs.signalingState ≠ SigState.haveLocalOffer →
      handleSignalMessage s obs f (Envelope.answer sender)
        = ({ s with status := ConnectionStatus.negotiating,
                    statusMessage := "Finalizing connection..." }, [])) := by
  constructor
  · by_cases hsig : obs.signalingState = SigState.haveLocalOffer <;>
      by_cases hf : f.setRemoteAnswerFails <;>
      simp [handleSignalMessage, tryBody, isOfferOrAnswer, Envelope.senderId, hne, hpc,
            hsig, hf, restartConnection_of_hasPC]
  · intro hsig
    simp [handleSignalMessage, tryBody, Envelope.senderId, hne, hpc, hsig]

/-- Witness for `answer_applied_iff`: a stray answer in stable state is
ignored without touching the engine. -/
theorem answer_applied_iff_w :
    (mkSession "b1").hasPC = true ∧ ("a9" : String) ≠ (mkSession "b1").myId ∧
    handleSignalMessage (mkSession "b1") ⟨ConnState.new, SigState.stable, false⟩
        noFaults (Envelope.answer "a9")
      = ({ mkSession "b1" with status := ConnectionStatus.negotiating,
                               statusMessage := "Finalizing connection..." }, []) :=
  ⟨rfl, by decide,
   (answer_applied_iff (mkSession "b1") ⟨ConnState.new, SigState.stable, false⟩
      noFaults "a9" rfl (by decide)).2 (by decide)⟩

/-- Any throw point inside the try body leaves the `hasPC` field of the
session state it carries unchanged. -/
theorem tryBody_error_state (s : Session) (obs : EngineObs) (f : Faults)
    (p : Envelope) (e : Session × List Act)
    (h : tryBody s obs f p = Except.error e) : e.1.hasPC = s.hasPC := by
  cases p with
  | announce sender =>
      simp only [tryBody] at h
      split_ifs at h <;> simp_all
  | offer sender =>
      simp only [tryBody] at h
      split_ifs at h <;> first | (injection h with h ; subst h ; simp) | simp_all
  | answer sender =>
      simp only [tryBody] at h
      split_ifs at h <;> first | (injection h with h ; subst h ; simp) | simp_all
  | iceCandidate sender c =>
      cases c with
      | none => simp [tryBody] at h
      | some c =>
          simp only [tryBody] at h
          split_ifs at h <;> simp_all
  | leave sender => simp [tryBody] at h
  | chat sender m => simp [tryBody] at h

/-- C6: any exception raised at any point while processing an offer or answer
envelope (rollback, description application, answer creation or local answer
application, under every fault oracle) escalates to a full restart: the
engine is closed and rebuilt, status returns to waiting and announcing
resumes; an exception applying an individual ICE candidate — direct or during
the drain — never restarts and never aborts the remaining drain. -/
theorem fault_escalation_policy (s : Session) (obs : EngineObs) (f : Faults)
    (sender : String) (c : Nat) (hpc : s.hasPC = true) (hne : sender ≠ s.myId) :
    (∀ e, tryBody s obs f (Envelope.offer sender) = Except.error e →
      Act.closeEngine ∈ (handleSignalMessage s obs f (Envelope.offer sender)).2 ∧
      Act.newEngine ∈ (handleSignalMessage s obs f (Envelope.offer sender)).2 ∧
      (handleSignalMessage s obs f (Envelope.offer sender)).1.status
        = ConnectionStatus.waitingForPeer ∧
      (handleSignalMessage s obs f (Envelope.offer sender)).1.announceOn = true) ∧
    (∀ e, tryBody s obs f (Envelope.answer sender) = Except.error e →
      Act.closeEngine ∈ (handleSignalMessage s obs f (Envelope.answer sender)).2 ∧
      Act.newEngine ∈ (handleSignalMessage s obs f (Envelope.answer sender)).2 ∧
      (handleSignalMessage s obs f (Envelope.answer sender)).1.status
        = ConnectionStatus.waitingForPeer ∧
      (handleSignalMessage s obs f (Envelope.answer sender)).1.announceOn = true) ∧
    (Act.newEngine ∉
        (handleSignalMessage s obs f (Envelope.iceCandidate sender (some c))).2 ∧
      Act.closeEngine ∉
        (handleSignalMessage s obs f (Envelope.iceCandidate sender (some c))).2) ∧
    (f.rollbackFails = false → f.setRemoteOfferFails = false →
      f.createAnswerFails = false → f.setLocalAnswerFails = false →
      Act.newEngine ∉ (handleSignalMessage s obs f (Envelope.offer sender)).2 ∧
      Act.sendAnswer ∈ (handleSignalMessage s obs f (Envelope.offer sender)).2) := by
  refine ⟨?_, ?_, ?_, ?_⟩
  · intro e he
    have hE : e.1.hasPC = true := (tryBody_error_state s obs f _ e he).trans hpc
    have hmain : handleSignalMessage s obs f (Envelope.offer sender)
        = ((restartConnection e.1).1, e.2 ++ (restartConnection e.1).2) := by
      simp [handleSignalMessage, Envelope.senderId, hne, hpc, isOfferOrAnswer, he]
    rw [hmain, restartConnection_of_hasPC e.1 hE]
    simp
  · intro e he
    have hE : e.1.hasPC = true := (tryBody_error_state s obs f _ e he).trans hpc
    have hmain : handleSignalMessage s obs f (Envelope.answer sender)
        = ((restartConnection e.1).1, e.2 ++ (restartConnection e.1).2) := by
      simp [handleSignalMessage, Envelope.senderId, hne, hpc, isOfferOrAnswer, he]
    rw [hmain, restartConnection_of_hasPC e.1 hE]
    simp
  · by_cases hrd : obs.remoteDescSet <;>
      constructor <;>
      simp [handleSignalMessage, tryBody, Envelope.senderId, hne, hpc, hrd]
  · intro hf1 hf2 hf3 hf4
    by_cases hsig : obs.signalingState = SigState.stable <;>
      constructor <;>
      simp [handleSignalMessage, tryBody, isOfferOrAnswer, Envelope.senderId, hne, hpc,
            hsig, hf1, hf2, hf3, hf4, drainQueue]

/-- The all-succeeding oracle except that applying the remote offer throws. -/
def offerFault : Faults :=
  { noFaults with setRemoteOfferFails := true }

/-- Witness for `fault_escalation_policy`: a throwing remote-offer application
leads to a rebuilt engine, and a failing individual candidate does not. -/
theorem fault_escalation_policy_w :
    (mkSession "b1").hasPC = true ∧ ("a9" : String) ≠ (mkSession "b1").myId ∧
    tryBody (mkSession "b1") ⟨ConnState.new, SigState.stable, false⟩ offerFault
        (Envelope.offer "a9")
      = Except.error ({ mkSession "b1" with
                          status := ConnectionStatus.negotiating,
                          statusMessage := "Accepting connection...",
                          announceOn := false }, [Act.setRemoteOffer]) ∧
    Act.newEngine ∈ (handleSignalMessage (mkSession "b1")
        ⟨ConnState.new, SigState.stable, false⟩ offerFault
        (Envelope.offer "a9")).2 ∧
    Act.newEngine ∉ (handleSignalMessage (mkSession "b1")
        ⟨ConnState.new, SigState.stable, false⟩ offerFault
        (Envelope.iceCandidate "a9" (some 4))).2 :=
  ⟨rfl, by decide, rfl,
   ((fault_escalation_policy (mkSession "b1") ⟨ConnState.new, SigState.stable, false⟩
       offerFault "a9" 4 rfl (by decide)).1
      ({ mkSession "b1" with
           status := ConnectionStatus.negotiating,
           statusMessage := "Accepting connection...",
           announceOn := false }, [Act.setRemoteOffer]) rfl).2.1,
   (fault_escalation_policy (mkSession "b1") ⟨ConnState.new, SigState.stable, false⟩
       offerFault "a9" 4 rfl (by decide)).2.2.1.1⟩

/-- C7: after sending the offer, `initiateConnection` cancels any previously
armed negotiation timer and arms a fresh single-shot 10s one; if the timer
fires while neither the connection state nor the ICE connection state is
connected, the engine is torn down and rebuilt, status becomes waiting for
peer, and announcing resumes. -/
theorem negotiation_timer_policy (s : Session) (f : Faults) (pcState : ConnState)
    (iceState : IceState) (hpc : s.hasPC = true)
    (hf1 : f.createOfferFails = false) (hf2 : f.setLocalOfferFails = false)
    (hp : pcState ≠ ConnState.connected) (hi : iceState ≠ IceState.connected) :
    (initiateConnection s f
      = ({ s with announceOn := false, status := ConnectionStatus.negotiating,
                  statusMessage := "Calling peer...", isInitiator := true,
                  negotiationTimer := true },
         [Act.createDataChannel, Act.createOffer, Act.setLocalOffer, Act.sendOffer]
           ++ (if s.negotiationTimer then [Act.cancelTimer] else [])
           ++ [Act.armTimer 10000])) ∧
    ((negotiationTimerFire s pcState iceState).1.status
        = ConnectionStatus.waitingForPeer ∧
     (negotiationTimerFire s pcState iceState).1.announceOn = true ∧
     (negotiationTimerFire s pcState iceState).1.hasPC = true ∧
     Act.closeEngine ∈ (negotiationTimerFire s pcState iceState).2 ∧
     Act.newEngine ∈ (negotiationTimerFire s pcState iceState).2) := by
  constructor
  · simp [initiateConnection, hpc, hf1, hf2]
  · have h : ({ s with negotiationTimer := false } : Session).hasPC = true := hpc
    refine ⟨?_, ?_, ?_, ?_, ?_⟩ <;>
      simp [negotiationTimerFire, hp, hi, restartConnection_of_hasPC _ h]

/-- Witness for `negotiation_timer_policy`: a fresh initiator arms a 10s timer
and a timeout in the connecting state triggers the rebuild. -/
theorem negotiation_timer_policy_w :
    (mkSession "b1").hasPC = true ∧
    (initiateConnection (mkSession "b1") noFaults).1.negotiationTimer = true ∧
    (negotiationTimerFire (mkSession "b1") ConnState.connecting
        IceState.checking).1.status = ConnectionStatus.waitingForPeer ∧
    Act.newEngine ∈ (negotiationTimerFire (mkSession "b1") ConnState.connecting
        IceState.checking).2 :=
  ⟨rfl,
   by
     have h := (negotiation_timer_policy (mkSession "b1") noFaults
        ConnState.connecting IceState.checking rfl rfl rfl (by decide) (by decide)).1
     simp [h],
   ((negotiation_timer_policy (mkSession "b1") noFaults ConnState.connecting
       IceState.checking rfl rfl rfl (by decide) (by decide)).2).1,
   ((negotiation_timer_policy (mkSession "b1") noFaults ConnState.connecting
       IceState.checking rfl rfl rfl (by decide) (by decide)).2).2.2.2.2⟩
